import Mathlib

/-!
Verification development for the cyclone workflow controller's configuration
layer (`pkg/workflow/controller/config.go`) and, modelled from the
specification, the admission-control subsystem that consumes the
`ParallelismConfig` it declares.

The Go code is embedded shallowly: the package-level mutable variable
`Config` becomes explicit state threading, `encoding/json.Unmarshal(data,
&Config)` becomes a decoder argument of type `Unmarshal` that receives the
current value of the state and returns the (possibly partially) updated
value together with an optional error — exactly the interface the Go call
site hands to the standard library, which merges into the pointed-to struct
and may modify it even when it reports a decoding error. Log calls carry no
control flow; where a claim is about an emitted warning, the warning list is
returned explicitly.
-/

namespace Cyclone

/-- Environment variable name that switches development mode
(`DevModeEnvName` in config.go). -/
def DevModeEnvName : String := "DEVELOP_MODE"

/-- Key of the config file inside the ConfigMap (`ConfigFileKey`). -/
def ConfigFileKey : String := "workflow-controller.json"

/-- Key of the coordinator image in the config file. -/
def CoordinatorImage : String := "coordinator"

/-- Key of the GC image in the config file. -/
def GCImage : String := "gc"

/-- Key of the docker-in-docker image in the config file. -/
def DindImage : String := "dind"

/-- Key of the cyclone toolbox image in the config file. -/
def ToolboxImage : String := "toolbox"

/-- Logging configuration (`LoggingConfig`). -/
structure LoggingConfig where
  Level : String := ""
deriving Repr, DecidableEq

/-- Default namespace, pvc and service account used to run workflows
(`ExecutionContext`). -/
structure ExecutionContext where
  Namespace : String := ""
  PVC : String := ""
  ServiceAccount : String := ""
deriving Repr, DecidableEq

/-- Resource requirements for containers; stands for
`corev1.ResourceRequirements` (maps from resource name to quantity). -/
structure ResourceRequirements where
  Limits : List (String × String) := []
  Requests : List (String × String) := []
deriving Repr, DecidableEq

/-- GC configuration (`GCConfig`). `DelaySeconds` is a `time.Duration`,
i.e. an int64 count of nanoseconds. -/
structure GCConfig where
  Enabled : Bool := false
  DelaySeconds : Int := 0
  RetryCount : Int := 0
  ResourceRequirements : Cyclone.ResourceRequirements := {}
deriving Repr, DecidableEq

/-- Maximum WorkflowRuns to keep for each Workflow (`LimitsConfig`). -/
structure LimitsConfig where
  MaxWorkflowRuns : Int := 0
deriving Repr, DecidableEq

/-- Constraints on parallelism (`ParallelismConstraint`); both fields are
int64 in the source. -/
structure ParallelismConstraint where
  MaxParallel : Int := 0
  MaxQueueSize : Int := 0
deriving Repr, DecidableEq

/-- Overall and per-workflow parallelism constraints (`ParallelismConfig`). -/
structure ParallelismConfig where
  Overall : ParallelismConstraint := {}
  SingleWorkflow : ParallelismConstraint := {}
deriving Repr, DecidableEq

/-- Settings for Docker in Docker (`DindSettings`). -/
structure DindSettings where
  InsecureRegistries : List String := []
  Bip : String := ""
deriving Repr, DecidableEq

/-- Workers number for the four controllers (`WorkersNumber`); all four
fields are Go `int`. -/
structure WorkersNumber where
  ExecutionCluster : Int := 0
  WorkflowTrigger : Int := 0
  WorkflowRun : Int := 0
  Pod : Int := 0
deriving Repr, DecidableEq

/-- Configuration of the Workflow Controller (`WorkflowControllerConfig`).
Field defaults are the Go zero values, which is the initial value of the
package-level `Config` variable. In the source `Parallelism` is a pointer,
hence `Option` here. -/
structure WorkflowControllerConfig where
  Images : List (String × String) := []
  Logging : LoggingConfig := {}
  GC : GCConfig := {}
  Limits : LimitsConfig := {}
  Parallelism : Option ParallelismConfig := none
  ResourceRequirements : Cyclone.ResourceRequirements := {}
  ExecutionContext : Cyclone.ExecutionContext := {}
  CycloneServerAddr : String := ""
  NotificationURL : String := ""
  DindSettings : Cyclone.DindSettings := {}
  WorkersNumber : Cyclone.WorkersNumber := {}
deriving Repr, DecidableEq

/-- The relevant fields of a `corev1.ConfigMap`: a name and a string-keyed
data map (keys in a Go map are unique, so `List.lookup` on an association
list models indexing). -/
structure ConfigMap where
  Name : String := ""
  Data : List (String × String) := []
deriving Repr, DecidableEq

/-- Errors `LoadConfig` can return: the missing-data-key error (carrying the
ConfigMap name), the error returned by `json.Unmarshal` (carrying its
message), and the `validate config failed` error. -/
inductive LoadError where
  | missingKey (cmName : String)
  | malformed (msg : String)
  | validateFailed
deriving Repr, DecidableEq

/-- Interface of `encoding/json.Unmarshal(data, &Config)` as used at the
call site: the decoder is handed the current value of the pointed-to struct
and produces the updated value plus an optional error message. Per the
encoding/json contract the value may be modified even when an error is
returned (a type-mismatched field yields an `UnmarshalTypeError` while the
remaining fields are still stored through the pointer). -/
abbrev Unmarshal := String → WorkflowControllerConfig →
  WorkflowControllerConfig × Option String

/-- The warning message logged by `validate` when no PVC is configured. -/
def pvcWarning : String :=
  "PVC not configured, resources won't be shared among stages and artifacts unsupported."

/-- Embedding of `validate`: returns the boolean result together with the
list of warnings it logs. The Go function warns when
`config.ExecutionContext.PVC == ""` and returns `true` unconditionally. -/
def validate (config : WorkflowControllerConfig) : Bool × List String :=
  if config.ExecutionContext.PVC = "" then (true, [pvcWarning]) else (true, [])

/-- Embedding of `defaultValues`: each of the four worker counts equal to 0
is replaced by 1, in the source order (ExecutionCluster, Pod,
WorkflowTrigger, WorkflowRun). -/
def defaultValues (config : WorkflowControllerConfig) : WorkflowControllerConfig :=
  let config :=
    if config.WorkersNumber.ExecutionCluster = 0 then
      { config with WorkersNumber := { config.WorkersNumber with ExecutionCluster := 1 } }
    else config
  let config :=
    if config.WorkersNumber.Pod = 0 then
      { config with WorkersNumber := { config.WorkersNumber with Pod := 1 } }
    else config
  let config :=
    if config.WorkersNumber.WorkflowTrigger = 0 then
      { config with WorkersNumber := { config.WorkersNumber with WorkflowTrigger := 1 } }
    else config
  let config :=
    if config.WorkersNumber.WorkflowRun = 0 then
      { config with WorkersNumber := { config.WorkersNumber with WorkflowRun := 1 } }
    else config
  config

/-- Embedding of `LoadConfig`. The package-level mutable `Config` variable
is threaded as explicit state: the function takes its value before the call
and returns its value after the call together with the returned error
(`none` for a nil error). Control flow mirrors the source: look up
`ConfigFileKey` in `cm.Data`; on a miss return the missing-key error with
the state untouched; otherwise run the decoder on the state (the Go call
passes `&Config`), and on a decoder error return it with whatever the
decoder left in the state; otherwise validate and, on the (unreachable)
`false` result, fail; otherwise apply `defaultValues` to the state and
succeed. `InitLogger` only configures logging and is not modelled. -/
def LoadConfig (unmarshal : Unmarshal) (cm : ConfigMap)
    (config : WorkflowControllerConfig) :
    WorkflowControllerConfig × Option LoadError :=
  match cm.Data.lookup ConfigFileKey with
  | none => (config, some (.missingKey cm.Name))
  | some data =>
    match unmarshal data config with
    | (config1, some e) => (config1, some (.malformed e))
    | (config1, none) =>
      if (validate config1).1 then (defaultValues config1, none)
      else (config1, some .validateFailed)

/-- The three pull policies of `corev1.PullPolicy`. -/
inductive PullPolicy where
  | pullAlways
  | pullIfNotPresent
  | pullNever
deriving Repr, DecidableEq

/-- Embedding of `ImagePullPolicy`: the process environment is the function
`getenv` (with `os.Getenv` returning `""` for unset variables). Returns
`PullAlways` when `DEVELOP_MODE` equals `"true"`, else `PullIfNotPresent`. -/
def ImagePullPolicy (getenv : String → String) : PullPolicy :=
  if getenv DevModeEnvName = "true" then .pullAlways else .pullIfNotPresent

/-! Concrete fixtures used by witnesses and counterexamples. -/

/-- A decoder that accepts anything and leaves the state unchanged. -/
def unmarshalOk : Unmarshal := fun _ config => (config, none)

/-- A decoder that rejects anything, leaving the state unchanged (the
behaviour of `json.Unmarshal` on syntactically invalid JSON, which is
checked before any field is written). -/
def unmarshalErr : Unmarshal := fun _ config => (config, some "invalid character")

/-- A ConfigMap without the `workflow-controller.json` data key. -/
def cmNoKey : ConfigMap := { Name := "cfg", Data := [("other-key", "1")] }

/-- A ConfigMap whose policy payload is not valid JSON. -/
def cmBadPayload : ConfigMap :=
  { Name := "cfg", Data := [(ConfigFileKey, "not json")] }

/-- A ConfigMap carrying some policy payload under the expected key. -/
def cmWithKey : ConfigMap :=
  { Name := "cfg", Data := [(ConfigFileKey, "payload")] }

/-- A syntactically valid JSON policy document with a type-mismatched field:
`images` must decode into a string map but holds a number here. -/
def jsonTypeErrDoc : String :=
  "\x7b\"cyclone_server_addr\":\"http://cyclone\",\"images\":0\x7d"

/-- Models the behaviour of `encoding/json.Unmarshal` on `jsonTypeErrDoc`:
the document is valid JSON, so decoding proceeds field by field;
`cyclone_server_addr` is stored through the pointer, then the number found
at `images` produces an `UnmarshalTypeError`, which Unmarshal records while
it "completes the unmarshaling as best it can" — so the call returns an
error AND has modified the pointed-to struct. -/
def unmarshalTypeErr : Unmarshal := fun _ config =>
  ({ config with CycloneServerAddr := "http://cyclone" },
   some "json: cannot unmarshal number into Go struct field WorkflowControllerConfig.images of type map[string]string")

/-- The ConfigMap carrying `jsonTypeErrDoc` under the policy key. -/
def cmTypeErr : ConfigMap :=
  { Name := "workflow-controller", Data := [(ConfigFileKey, jsonTypeErrDoc)] }

/-! Claim theorems about the configuration loader. -/

/-- C1: for every ConfigMap whose data lacks the key
`workflow-controller.json`, `LoadConfig` fails with the missing-key error,
for every decoder and every prior state — in particular the decoder is
never consulted (the result does not depend on `u`), the state is returned
unchanged, and no validation or defaulting output is observable. -/
theorem loadConfig_missingKey (u : Unmarshal) (cm : ConfigMap)
    (config : WorkflowControllerConfig)
    (h : cm.Data.lookup ConfigFileKey = none) :
    LoadConfig u cm config = (config, some (.missingKey cm.Name)) := by
  simp [LoadConfig, h]

/-- Witness for C1: the fixture ConfigMap without the policy key fails with
the missing-key error. -/
theorem loadConfig_missingKey_witness :
    cmNoKey.Data.lookup ConfigFileKey = none ∧
    LoadConfig unmarshalOk cmNoKey {} = ({}, some (.missingKey "cfg")) :=
  ⟨by decide, loadConfig_missingKey unmarshalOk cmNoKey {} (by decide)⟩

/-- C2: whenever the policy key is present but the decoder fails on its
payload, `LoadConfig` returns the decoder's error (the Malformed failure)
rather than succeeding, and the final state is exactly what the decoder
left — no validation or defaulting is applied. -/
theorem loadConfig_malformed (u : Unmarshal) (cm : ConfigMap)
    (config config1 : WorkflowControllerConfig) (data e : String)
    (hk : cm.Data.lookup ConfigFileKey = some data)
    (hu : u data config = (config1, some e)) :
    LoadConfig u cm config = (config1, some (.malformed e)) := by
  simp [LoadConfig, hk, hu]

/-- Witness for C2: a payload the decoder rejects produces the malformed
error. -/
theorem loadConfig_malformed_witness :
    cmBadPayload.Data.lookup ConfigFileKey = some "not json" ∧
    unmarshalErr "not json" {} = ({}, some "invalid character") ∧
    LoadConfig unmarshalErr cmBadPayload {} =
      ({}, some (.malformed "invalid character")) :=
  ⟨by decide, rfl,
    loadConfig_malformed unmarshalErr cmBadPayload {} {} "not json"
      "invalid character" (by decide) rfl⟩

/-- Helper: `validate` returns `true` whatever the configuration. -/
theorem validate_fst (config : WorkflowControllerConfig) :
    (validate config).1 = true := by
  unfold validate
  split <;> rfl

/-- Helper: `defaultValues` acts independently on the four worker counts,
replacing exactly the zero ones by 1, and leaves every other field of the
configuration unchanged. -/
theorem defaultValues_spec (config : WorkflowControllerConfig) :
    (defaultValues config).WorkersNumber.ExecutionCluster =
      (if config.WorkersNumber.ExecutionCluster = 0 then 1
       else config.WorkersNumber.ExecutionCluster) ∧
    (defaultValues config).WorkersNumber.WorkflowTrigger =
      (if config.WorkersNumber.WorkflowTrigger = 0 then 1
       else config.WorkersNumber.WorkflowTrigger) ∧
    (defaultValues config).WorkersNumber.WorkflowRun =
      (if config.WorkersNumber.WorkflowRun = 0 then 1
       else config.WorkersNumber.WorkflowRun) ∧
    (defaultValues config).WorkersNumber.Pod =
      (if config.WorkersNumber.Pod = 0 then 1 else config.WorkersNumber.Pod) ∧
    defaultValues config =
      { config with WorkersNumber := (defaultValues config).WorkersNumber } := by
  unfold defaultValues
  by_cases h1 : config.WorkersNumber.ExecutionCluster = 0 <;>
    by_cases h2 : config.WorkersNumber.Pod = 0 <;>
    by_cases h3 : config.WorkersNumber.WorkflowTrigger = 0 <;>
    by_cases h4 : config.WorkersNumber.WorkflowRun = 0 <;>
    simp_all

/-- C3: on a successful load each of the four worker-pool sizes that is
zero in the decoded configuration is defaulted to 1, and each pool's final
value is the if-zero function of that pool's own decoded value alone —
setting any one pool to a nonzero value cannot affect the defaulting of the
other three. -/
theorem loadConfig_defaults_workers (u : Unmarshal) (cm : ConfigMap)
    (config config1 : WorkflowControllerConfig) (data : String)
    (hk : cm.Data.lookup ConfigFileKey = some data)
    (hu : u data config = (config1, none)) :
    (LoadConfig u cm config).2 = none ∧
    (LoadConfig u cm config).1.WorkersNumber.ExecutionCluster =
      (if config1.WorkersNumber.ExecutionCluster = 0 then 1
       else config1.WorkersNumber.ExecutionCluster) ∧
    (LoadConfig u cm config).1.WorkersNumber.WorkflowTrigger =
      (if config1.WorkersNumber.WorkflowTrigger = 0 then 1
       else config1.WorkersNumber.WorkflowTrigger) ∧
    (LoadConfig u cm config).1.WorkersNumber.WorkflowRun =
      (if config1.WorkersNumber.WorkflowRun = 0 then 1
       else config1.WorkersNumber.WorkflowRun) ∧
    (LoadConfig u cm config).1.WorkersNumber.Pod =
      (if config1.WorkersNumber.Pod = 0 then 1
       else config1.WorkersNumber.Pod) := by
  have hload : LoadConfig u cm config = (defaultValues config1, none) := by
    simp [LoadConfig, hk, hu, validate_fst]
  obtain ⟨e1, e2, e3, e4, _⟩ := defaultValues_spec config1
  rw [hload]
  exact ⟨rfl, e1, e2, e3, e4⟩

/-- Witness for C3: decoding yields a configuration whose WorkflowRun pool
is 5 and the other three pools are 0; the load succeeds and defaults
exactly the three zero pools to 1, keeping 5. -/
theorem loadConfig_defaults_workers_witness :
    (LoadConfig
        (fun _ config =>
          ({ config with WorkersNumber := { WorkflowRun := 5 } }, none))
        cmWithKey {}).2 = none ∧
    (LoadConfig
        (fun _ config =>
          ({ config with WorkersNumber := { WorkflowRun := 5 } }, none))
        cmWithKey {}).1.WorkersNumber =
      { ExecutionCluster := 1, WorkflowTrigger := 1, WorkflowRun := 5, Pod := 1 } := by
  have h := loadConfig_defaults_workers
    (fun _ config => ({ config with WorkersNumber := { WorkflowRun := 5 } }, none))
    cmWithKey {} { WorkersNumber := { WorkflowRun := 5 } } "payload"
    (by decide) rfl
  exact ⟨h.1, by decide⟩

/-- C4: an otherwise well-formed configuration with an empty PVC loads
successfully — `validate` treats the absent shared-volume identifier as a
logged warning (returned here in the warning list), never as a load
error. -/
theorem loadConfig_emptyPVC_succeeds (u : Unmarshal) (cm : ConfigMap)
    (config config1 : WorkflowControllerConfig) (data : String)
    (hk : cm.Data.lookup ConfigFileKey = some data)
    (hu : u data config = (config1, none))
    (hpvc : config1.ExecutionContext.PVC = "") :
    (LoadConfig u cm config).2 = none ∧ validate config1 = (true, [pvcWarning]) := by
  constructor
  · simp [LoadConfig, hk, hu, validate_fst]
  · simp [validate, hpvc]

/-- Witness for C4: the identity decoder leaves the PVC empty; the load
succeeds and the PVC warning is emitted by validation. -/
theorem loadConfig_emptyPVC_succeeds_witness :
    (LoadConfig unmarshalOk cmWithKey {}).2 = none ∧
    validate {} = (true, [pvcWarning]) :=
  loadConfig_emptyPVC_succeeds unmarshalOk cmWithKey {} {} "payload"
    (by decide) rfl rfl

/-- C9: `validate` returns `true` on every configuration, so the
`validate config failed` branch of `LoadConfig` is unreachable: every
outcome of `LoadConfig` is success, a missing-key error, or a malformed
error — never `validateFailed`. -/
theorem validate_total (config : WorkflowControllerConfig) (u : Unmarshal)
    (cm : ConfigMap) (st : WorkflowControllerConfig) :
    (validate config).1 = true ∧
    ((LoadConfig u cm st).2 = none ∨
      (∃ n, (LoadConfig u cm st).2 = some (.missingKey n)) ∨
      (∃ m, (LoadConfig u cm st).2 = some (.malformed m))) := by
  refine ⟨validate_fst config, ?_⟩
  cases hk : cm.Data.lookup ConfigFileKey with
  | none => exact Or.inr (Or.inl ⟨cm.Name, by simp [LoadConfig, hk]⟩)
  | some data =>
    cases hu : u data st with
    | mk config1 oerr =>
      cases oerr with
      | some e => exact Or.inr (Or.inr ⟨e, by simp [LoadConfig, hk, hu]⟩)
      | none => exact Or.inl (by simp [LoadConfig, hk, hu, validate_fst])

/-- C10: defaulting applies only to worker-pool sizes that are exactly
zero — a negative size in the decoded configuration is preserved unchanged
by `defaultValues`, for each of the four pools independently. -/
theorem defaultValues_preserves_negative (config : WorkflowControllerConfig) :
    (config.WorkersNumber.ExecutionCluster < 0 →
      (defaultValues config).WorkersNumber.ExecutionCluster =
        config.WorkersNumber.ExecutionCluster) ∧
    (config.WorkersNumber.WorkflowTrigger < 0 →
      (defaultValues config).WorkersNumber.WorkflowTrigger =
        config.WorkersNumber.WorkflowTrigger) ∧
    (config.WorkersNumber.WorkflowRun < 0 →
      (defaultValues config).WorkersNumber.WorkflowRun =
        config.WorkersNumber.WorkflowRun) ∧
    (config.WorkersNumber.Pod < 0 →
      (defaultValues config).WorkersNumber.Pod = config.WorkersNumber.Pod) := by
  obtain ⟨e1, e2, e3, e4, _⟩ := defaultValues_spec config
  refine ⟨fun h => ?_, fun h => ?_, fun h => ?_, fun h => ?_⟩
  · rw [e1, if_neg (by omega)]
  · rw [e2, if_neg (by omega)]
  · rw [e3, if_neg (by omega)]
  · rw [e4, if_neg (by omega)]

/-- Witness for C10: a configuration with all four pools negative passes
through `defaultValues` unchanged on those fields. -/
theorem defaultValues_preserves_negative_witness :
    ((-2 : Int) < 0) ∧
    (defaultValues { WorkersNumber :=
        { ExecutionCluster := -2, WorkflowTrigger := -3,
          WorkflowRun := -4, Pod := -5 } }).WorkersNumber =
      { ExecutionCluster := -2, WorkflowTrigger := -3,
        WorkflowRun := -4, Pod := -5 } := by
  have h := defaultValues_preserves_negative
    { WorkersNumber :=
        { ExecutionCluster := -2, WorkflowTrigger := -3,
          WorkflowRun := -4, Pod := -5 } }
  exact ⟨by decide, by
    have h1 := h.1 (by decide)
    have h2 := h.2.1 (by decide)
    have h3 := h.2.2.1 (by decide)
    have h4 := h.2.2.2 (by decide)
    decide⟩

/-- C6: `ImagePullPolicy` is a pure function of the environment: whenever
`DEVELOP_MODE` reads `"true"` it returns PullAlways, and for every other
value (including the empty string `os.Getenv` yields for an unset
variable) it returns PullIfNotPresent. -/
theorem imagePullPolicy_spec (getenv : String → String) :
    (getenv DevModeEnvName = "true" → ImagePullPolicy getenv = .pullAlways) ∧
    (getenv DevModeEnvName ≠ "true" →
      ImagePullPolicy getenv = .pullIfNotPresent) := by
  constructor <;> intro h <;> simp [ImagePullPolicy, h]

/-- Witness for C6: a development-mode environment yields PullAlways; an
environment with the variable unset yields PullIfNotPresent. -/
theorem imagePullPolicy_spec_witness :
    ImagePullPolicy (fun _ => "true") = .pullAlways ∧
    ImagePullPolicy (fun _ => "") = .pullIfNotPresent :=
  ⟨(imagePullPolicy_spec (fun _ => "true")).1 rfl,
   (imagePullPolicy_spec (fun _ => "")).2 (by decide)⟩

/-- C5 counterexample: with the type-mismatched (but syntactically valid)
JSON document `jsonTypeErrDoc`, `LoadConfig` fails — yet the process-visible
configuration state is NOT left unchanged: the decoder stored
`cyclone_server_addr` through the `&Config` pointer before reporting the
type error, so a partially-decoded snapshot is observable after the failed
load. -/
theorem loadConfig_partial_on_failure :
    (LoadConfig unmarshalTypeErr cmTypeErr {}).2.isSome = true ∧
    (LoadConfig unmarshalTypeErr cmTypeErr {}).1 ≠
      ({} : WorkflowControllerConfig) := by
  constructor
  · decide
  · decide

/-- C5 amended: a load that fails because the policy key is missing leaves
the configuration state unchanged, and a load that fails because the
payload does not decode leaves exactly the state the decoder produced — in
neither case is validation or defaulting applied, but on a decode failure
the decoder may already have partially overwritten the state. -/
theorem loadConfig_failure_state (u : Unmarshal) (cm : ConfigMap)
    (config : WorkflowControllerConfig) :
    (cm.Data.lookup ConfigFileKey = none →
      LoadConfig u cm config = (config, some (.missingKey cm.Name))) ∧
    (∀ data config1 e, cm.Data.lookup ConfigFileKey = some data →
      u data config = (config1, some e) →
      LoadConfig u cm config = (config1, some (.malformed e))) := by
  constructor
  · intro h
    simp [LoadConfig, h]
  · intro data config1 e hk hu
    simp [LoadConfig, hk, hu]

/-- Witness for the amended C5: the missing-key fixture keeps the default
state; the type-error fixture returns the decoder's partially-written
state. -/
theorem loadConfig_failure_state_witness :
    LoadConfig unmarshalOk cmNoKey {} = ({}, some (.missingKey "cfg")) ∧
    LoadConfig unmarshalTypeErr cmTypeErr {} =
      ({ CycloneServerAddr := "http://cyclone" },
        some (.malformed "json: cannot unmarshal number into Go struct field WorkflowControllerConfig.images of type map[string]string")) :=
  ⟨(loadConfig_failure_state unmarshalOk cmNoKey {}).1 (by decide),
   (loadConfig_failure_state unmarshalTypeErr cmTypeErr {}).2
     jsonTypeErrDoc { CycloneServerAddr := "http://cyclone" } _ (by decide) rfl⟩

/-!
Admission control. Modelled from the spec: the AdmissionController of §4.2
is not part of src/ — the source only declares the `ParallelismConstraint`
and `ParallelismConfig` limits it reads. States and operations follow
§3/§4.2: a run is `Pending → Queued → Running → terminal`; admission
atomically checks both running counters against `MaxParallel`, queueing
checks both queue lengths against `MaxQueueSize`; completion decrements and
then promotes queued runs in FIFO order, re-checking both capacity
conditions per candidate and skipping runs whose own workflow is still at
its cap. Since §5 serialises all counter/queue mutations through one
logical critical section, an interleaving of calls is a sequence of
atomic operations, modelled by the `AdmStep` relation.
-/

/-- Modelled from the spec: the states of a WorkflowRun (§3). -/
inductive RunState where
  | pending
  | queued
  | running
  | completed
  | failed
  | cancelled
deriving Repr, DecidableEq

/-- Modelled from the spec: a WorkflowRun record `(id, workflowID, state)`
(§3). -/
structure WorkflowRun where
  id : Nat
  workflowID : String
  state : RunState
deriving Repr, DecidableEq

/-- Modelled from the spec: the result of `RequestAdmission` (§4.2). -/
inductive AdmissionResult where
  | admitted
  | queued
  | rejectedQueueFull
deriving Repr, DecidableEq

/-- Tests whether a run is Running. -/
def isRunning (r : WorkflowRun) : Bool := r.state == RunState.running

/-- Tests whether a run is Running and belongs to workflow `w`. -/
def isRunningOf (w : String) (r : WorkflowRun) : Bool :=
  r.state == RunState.running && r.workflowID == w

/-- Tests whether a run is Queued. -/
def isQueued (r : WorkflowRun) : Bool := r.state == RunState.queued

/-- Tests whether a run is Queued and belongs to workflow `w`. -/
def isQueuedOf (w : String) (r : WorkflowRun) : Bool :=
  r.state == RunState.queued && r.workflowID == w

/-- Number of Running runs system-wide. -/
def runningCount (s : List WorkflowRun) : Nat := s.countP isRunning

/-- Number of Running runs of workflow `w`. -/
def runningCountWf (s : List WorkflowRun) (w : String) : Nat :=
  s.countP (isRunningOf w)

/-- Length of the global waiting queue (runs in state Queued; the
per-workflow queue is the same records filtered by workflow, the
single-record/two-indexes layout of §9). -/
def queuedCount (s : List WorkflowRun) : Nat := s.countP isQueued

/-- Length of workflow `w`'s waiting queue. -/
def queuedCountWf (s : List WorkflowRun) (w : String) : Nat :=
  s.countP (isQueuedOf w)

/-- Modelled from the spec: step-1 capacity check of `RequestAdmission` —
both the global and the per-workflow Running counters are strictly below
their `MaxParallel` limits (§4.2). -/
def canAdmit (cfg : ParallelismConfig) (s : List WorkflowRun) (w : String) : Bool :=
  decide ((runningCount s : Int) < cfg.Overall.MaxParallel) &&
  decide ((runningCountWf s w : Int) < cfg.SingleWorkflow.MaxParallel)

/-- Modelled from the spec: step-2 queue-capacity check of
`RequestAdmission` — both queue lengths are strictly below their
`MaxQueueSize` limits (§4.2). -/
def canQueue (cfg : ParallelismConfig) (s : List WorkflowRun) (w : String) : Bool :=
  decide ((queuedCount s : Int) < cfg.Overall.MaxQueueSize) &&
  decide ((queuedCountWf s w : Int) < cfg.SingleWorkflow.MaxQueueSize)

/-- Modelled from the spec: `RequestAdmission` (§4.2). Admit when both
running counters have room; otherwise enqueue when both queues have room;
otherwise reject with QueueFull, the run staying Pending. -/
def requestAdmission (cfg : ParallelismConfig) (s : List WorkflowRun)
    (run : WorkflowRun) : List WorkflowRun × AdmissionResult :=
  if canAdmit cfg s run.workflowID then
    (s ++ [{ run with state := .running }], .admitted)
  else if canQueue cfg s run.workflowID then
    (s ++ [{ run with state := .queued }], .queued)
  else
    (s ++ [{ run with state := .pending }], .rejectedQueueFull)

/-- Marks the first Running run with the given id as Completed (terminal
transition reported by `NotifyCompletion`, which per §4.2 is called once
per run that reaches a terminal state from Running). -/
def completeFirst (s : List WorkflowRun) (i : Nat) : List WorkflowRun :=
  match s with
  | [] => []
  | r :: rs =>
    if r.id == i && r.state == RunState.running then
      { r with state := .completed } :: rs
    else r :: completeFirst rs i

/-- Modelled from the spec: the promotion pass of `NotifyCompletion`
(§4.2). Scan the queue in FIFO order; a Queued candidate is promoted to
Running when both capacity conditions hold at that moment (re-checked per
candidate), and skipped — left Queued, preserving its position — when its
own workflow's cap still blocks it. A candidate does not count toward
Running capacity while still Queued, so the check reads the surrounding
state `done ++ rs`. -/
def promoteScan (cfg : ParallelismConfig) (done rest : List WorkflowRun) :
    List WorkflowRun :=
  match rest with
  | [] => done
  | r :: rs =>
    if r.state == RunState.queued && canAdmit cfg (done ++ rs) r.workflowID then
      promoteScan cfg (done ++ [{ r with state := .running }]) rs
    else
      promoteScan cfg (done ++ [r]) rs

/-- Modelled from the spec: `NotifyCompletion` (§4.2) — the completing run
leaves Running (freeing both counters), then waiting runs are promoted
while slots remain. -/
def notifyCompletion (cfg : ParallelismConfig) (s : List WorkflowRun)
    (i : Nat) : List WorkflowRun :=
  promoteScan cfg [] (completeFirst s i)

/-- One atomic operation of the AdmissionController (§5 serialises all
mutations, so any interleaving of concurrent calls is a sequence of these
steps). -/
inductive AdmStep (cfg : ParallelismConfig) :
    List WorkflowRun → List WorkflowRun → Prop where
  | request (s : List WorkflowRun) (run : WorkflowRun) :
      AdmStep cfg s (requestAdmission cfg s run).1
  | complete (s : List WorkflowRun) (i : Nat) :
      AdmStep cfg s (notifyCompletion cfg s i)

/-- States reachable from the empty controller by any interleaving of
`RequestAdmission` and `NotifyCompletion` calls. -/
inductive Reachable (cfg : ParallelismConfig) : List WorkflowRun → Prop where
  | init : Reachable cfg []
  | step {s s' : List WorkflowRun} :
      Reachable cfg s → AdmStep cfg s s' → Reachable cfg s'

/-- The two-level parallelism invariant of §3. -/
def ParallelismInv (cfg : ParallelismConfig) (s : List WorkflowRun) : Prop :=
  (runningCount s : Int) ≤ cfg.Overall.MaxParallel ∧
  ∀ w, (runningCountWf s w : Int) ≤ cfg.SingleWorkflow.MaxParallel

/-- Helper: counting over a list with one element inserted in the middle. -/
theorem countP_middle (p : WorkflowRun → Bool) (done rest : List WorkflowRun)
    (r : WorkflowRun) :
    List.countP p (done ++ r :: rest) =
      List.countP p (done ++ rest) + (if p r then 1 else 0) := by
  cases hp : p r
  · simp [List.countP_append, List.countP_cons, hp]
  · simp [List.countP_append, List.countP_cons, hp]
    omega

/-- Helper: unfolding `canAdmit` into its two strict bounds. -/
theorem canAdmit_iff (cfg : ParallelismConfig) (s : List WorkflowRun)
    (w : String) :
    canAdmit cfg s w = true ↔
      ((runningCount s : Int) < cfg.Overall.MaxParallel ∧
        (runningCountWf s w : Int) < cfg.SingleWorkflow.MaxParallel) := by
  simp [canAdmit]

/-- Helper: appending a non-Running run changes no Running count. -/
theorem runningCounts_append_notRunning (s : List WorkflowRun)
    (r : WorkflowRun) (hr : isRunning r = false) :
    runningCount (s ++ [r]) = runningCount s ∧
    ∀ w, runningCountWf (s ++ [r]) w = runningCountWf s w := by
  constructor
  · simp [runningCount, List.countP_append, List.countP_cons, hr]
  · intro w
    have hw : isRunningOf w r = false := by
      simp only [isRunningOf]
      simp only [isRunning] at hr
      simp [hr]
    simp [runningCountWf, List.countP_append, List.countP_cons, hw]

/-- Helper: appending a Running run of workflow `v` raises the global count
and `v`'s count by one and leaves other workflows' counts unchanged. -/
theorem runningCounts_append_running (s : List WorkflowRun) (r : WorkflowRun)
    (hr : isRunning r = true) :
    runningCount (s ++ [r]) = runningCount s + 1 ∧
    runningCountWf (s ++ [r]) r.workflowID = runningCountWf s r.workflowID + 1 ∧
    ∀ w, w ≠ r.workflowID → runningCountWf (s ++ [r]) w = runningCountWf s w := by
  refine ⟨?_, ?_, ?_⟩
  · simp [runningCount, List.countP_append, List.countP_cons, hr]
  · have hw : isRunningOf r.workflowID r = true := by
      simp [isRunningOf, isRunning] at hr ⊢
      exact hr
    simp [runningCountWf, List.countP_append, List.countP_cons, hw]
  · intro w hwne
    have hw : isRunningOf w r = false := by
      simp [isRunningOf]
      intro _
      exact fun h => hwne h.symm
    simp [runningCountWf, List.countP_append, List.countP_cons, hw]

/-- Helper: `requestAdmission` preserves the parallelism invariant — the
admit branch is guarded by `canAdmit`, and the queue/reject branches do not
create Running runs. -/
theorem requestAdmission_inv (cfg : ParallelismConfig) (s : List WorkflowRun)
    (run : WorkflowRun) (h : ParallelismInv cfg s) :
    ParallelismInv cfg (requestAdmission cfg s run).1 := by
  obtain ⟨hg, hw⟩ := h
  unfold requestAdmission
  split
  case isTrue hadm =>
    rw [canAdmit_iff] at hadm
    obtain ⟨c1, c2, c3⟩ :=
      runningCounts_append_running s { run with state := .running } rfl
    constructor
    · simp only [c1]
      push_cast
      omega
    · intro w
      by_cases hww : w = run.workflowID
      · subst hww
        simp only [c2]
        push_cast
        omega
      · rw [c3 w hww]
        exact hw w
  case isFalse =>
    split
    case isTrue =>
      obtain ⟨c1, c2⟩ :=
        runningCounts_append_notRunning s { run with state := .queued } rfl
      exact ⟨by simp only [c1]; exact hg, fun w => by rw [c2 w]; exact hw w⟩
    case isFalse =>
      obtain ⟨c1, c2⟩ :=
        runningCounts_append_notRunning s { run with state := .pending } rfl
      exact ⟨by simp only [c1]; exact hg, fun w => by rw [c2 w]; exact hw w⟩

/-- Helper: the promotion pass preserves the parallelism invariant — every
promotion is guarded by a fresh `canAdmit` check against the current
state. -/
theorem promoteScan_inv (cfg : ParallelismConfig) :
    ∀ rest done, ParallelismInv cfg (done ++ rest) →
      ParallelismInv cfg (promoteScan cfg done rest) := by
  intro rest
  induction rest with
  | nil =>
    intro done h
    simpa [promoteScan] using h
  | cons r rs ih =>
    intro done h
    unfold promoteScan
    split
    case isTrue hcond =>
      simp only [Bool.and_eq_true] at hcond
      obtain ⟨hq, hadm⟩ := hcond
      rw [canAdmit_iff] at hadm
      have hqs : r.state = RunState.queued := by
        simpa using hq
      apply ih
      rw [List.append_assoc]
      have hmid : ∀ p : WorkflowRun → Bool,
          List.countP p (done ++ { r with state := RunState.running } :: rs) =
            List.countP p (done ++ rs) +
              (if p { r with state := RunState.running } then 1 else 0) :=
        fun p => countP_middle p done rs _
      constructor
      · have : runningCount (done ++ { r with state := RunState.running } :: rs) =
            runningCount (done ++ rs) + 1 := by
          simpa [runningCount, isRunning] using hmid isRunning
        rw [List.singleton_append, this]
        push_cast
        omega
      · intro w
        by_cases hww : w = r.workflowID
        · subst hww
          have : runningCountWf (done ++ { r with state := RunState.running } :: rs)
                r.workflowID = runningCountWf (done ++ rs) r.workflowID + 1 := by
            simpa [runningCountWf, isRunningOf, isRunning] using
              hmid (isRunningOf r.workflowID)
          rw [List.singleton_append, this]
          push_cast
          omega
        · have hpre : runningCountWf (done ++ r :: rs) w =
              runningCountWf (done ++ rs) w := by
            have hfalse : isRunningOf w r = false := by
              simp [isRunningOf, hqs]
            simp [runningCountWf, hfalse, countP_middle (isRunningOf w) done rs r]
          have hpost : runningCountWf (done ++ { r with state := RunState.running } :: rs) w =
              runningCountWf (done ++ rs) w := by
            have hfalse : isRunningOf w { r with state := RunState.running } = false := by
              simp [isRunningOf]
              exact fun hcontra => hww hcontra.symm
            simp [runningCountWf, hfalse,
              countP_middle (isRunningOf w) done rs { r with state := RunState.running }]
          rw [List.singleton_append, hpost, ← hpre]
          exact h.2 w
    case isFalse =>
      apply ih
      rw [List.append_assoc]
      exact h

/-- Helper: completing a run never increases any Running count. -/
theorem completeFirst_le (s : List WorkflowRun) (i : Nat) :
    runningCount (completeFirst s i) ≤ runningCount s ∧
    ∀ w, runningCountWf (completeFirst s i) w ≤ runningCountWf s w := by
  induction s with
  | nil => exact ⟨Nat.le_refl _, fun w => Nat.le_refl _⟩
  | cons r rs ih =>
    unfold completeFirst
    split
    case isTrue hmatch =>
      simp only [Bool.and_eq_true] at hmatch
      have hrun : r.state = RunState.running := by
        simpa using hmatch.2
      constructor
      · have h1 : isRunning { r with state := RunState.completed } = false := rfl
        have h2 : isRunning r = true := by
          simp [isRunning, hrun]
        simp [runningCount, List.countP_cons, h1, h2]
      · intro w
        have h1 : isRunningOf w { r with state := RunState.completed } = false := by
          simp [isRunningOf]
        simp only [runningCountWf, List.countP_cons, h1]
        cases hp : isRunningOf w r <;> simp
    case isFalse =>
      constructor
      · simp only [runningCount, List.countP_cons]
        cases hp : isRunning r <;> simp <;> exact ih.1
      · intro w
        simp only [runningCountWf, List.countP_cons]
        cases hp : isRunningOf w r <;> simp <;> exact ih.2 w

/-- Helper: `notifyCompletion` preserves the parallelism invariant. -/
theorem notifyCompletion_inv (cfg : ParallelismConfig) (s : List WorkflowRun)
    (i : Nat) (h : ParallelismInv cfg s) :
    ParallelismInv cfg (notifyCompletion cfg s i) := by
  unfold notifyCompletion
  have hbase : ParallelismInv cfg (completeFirst s i) := by
    obtain ⟨c1, c2⟩ := completeFirst_le s i
    refine ⟨le_trans ?_ h.1, fun w => le_trans ?_ (h.2 w)⟩
    · exact_mod_cast c1
    · exact_mod_cast c2 w
  have := promoteScan_inv cfg (completeFirst s i) []
  simpa using this (by simpa using hbase)

/-- C8 (spec-modelled): from the empty controller, under any interleaving of
`RequestAdmission` and `NotifyCompletion` calls — i.e. in every reachable
state, the §5 critical section making each call atomic — the number of
Running runs never exceeds `Overall.MaxParallel`, and for every workflow
identity the number of its Running runs never exceeds
`SingleWorkflow.MaxParallel` (limits being nonnegative per §3). -/
theorem admission_parallelism_invariant (cfg : ParallelismConfig)
    (s : List WorkflowRun) (w : String)
    (hg : 0 ≤ cfg.Overall.MaxParallel)
    (hw : 0 ≤ cfg.SingleWorkflow.MaxParallel)
    (hr : Reachable cfg s) :
    (runningCount s : Int) ≤ cfg.Overall.MaxParallel ∧
    (runningCountWf s w : Int) ≤ cfg.SingleWorkflow.MaxParallel := by
  have hinv : ParallelismInv cfg s := by
    induction hr with
    | init =>
      exact ⟨by simpa [runningCount] using hg,
        fun v => by simpa [runningCountWf] using hw⟩
    | step hpre hstep ih =>
      cases hstep with
      | request run => exact requestAdmission_inv cfg _ run ih
      | complete i => exact notifyCompletion_inv cfg _ i ih
  exact ⟨hinv.1, hinv.2 w⟩

/-- The parallelism limits of the §8 scenario: at most 2 running overall
and per workflow, queues of size 1. -/
def cfgDemo : ParallelismConfig :=
  { Overall := { MaxParallel := 2, MaxQueueSize := 1 },
    SingleWorkflow := { MaxParallel := 2, MaxQueueSize := 1 } }

/-- A concrete run used by the C8 witness. -/
def runDemo : WorkflowRun := { id := 1, workflowID := "wf-a", state := .pending }

/-- A concrete reachable state: admit run 1, then complete it. -/
def stateDemo : List WorkflowRun :=
  notifyCompletion cfgDemo (requestAdmission cfgDemo [] runDemo).1 1

/-- The state `stateDemo` is reachable by two controller steps. -/
theorem stateDemo_reachable : Reachable cfgDemo stateDemo :=
  Reachable.step (Reachable.step Reachable.init (AdmStep.request [] runDemo))
    (AdmStep.complete _ 1)

/-- Witness for C8: the invariant evaluated on the concrete reachable state
`stateDemo` under the concrete limits `cfgDemo`. -/
theorem admission_parallelism_invariant_witness :
    (0 : Int) ≤ cfgDemo.Overall.MaxParallel ∧
    (0 : Int) ≤ cfgDemo.SingleWorkflow.MaxParallel ∧
    ((runningCount stateDemo : Int) ≤ cfgDemo.Overall.MaxParallel ∧
      (runningCountWf stateDemo "wf-a" : Int) ≤ cfgDemo.SingleWorkflow.MaxParallel) :=
  ⟨by decide, by decide,
    admission_parallelism_invariant cfgDemo stateDemo "wf-a" (by decide)
      (by decide) stateDemo_reachable⟩

end Cyclone
